import Mathlib

/-!
Verification of the `chain` library (src/chain/chain.hpp,
src/chain/detail/block_links.hpp) against its specification.

The block-management layer is embedded shallowly:

* a storage `block` is identified by a natural-number id; its mutable
  fields that the claims depend on (the `filled` count, the `refcount`)
  are carried explicitly by the functions that read or write them;
* a `block_links` segment (`block_offset_length_tuple`) becomes the
  structure `Seg`;
* `size_t` arithmetic is `Nat` arithmetic modulo `2 ^ 64` (`wsub`)
  wherever the source can underflow, and plain `Nat` subtraction where
  the source guards against it;
* the public `chain_t` type becomes `chain_t` below.  Its member
  functions `copy_links`, `operator==` and the copy constructor are
  declared in chain.hpp but have no definition anywhere in the sources,
  so they are modelled from the specification (each such definition says
  so in its doc comment); `chain_t::swap` and `chain_t::operator=` are
  embedded from the source.
-/

namespace ChainSpec

/-- One entry of `block_links::links`, the
`tuple<block*, size_t, size_t>` of block_links.hpp line 81:
block id, offset into the block's page, and length. -/
structure Seg where
  blk : Nat
  off : Nat
  len : Nat
deriving DecidableEq, Repr

/-- The `size_t` modulus: all block arithmetic in the source is on
64-bit unsigned integers. -/
def W : Nat := 2 ^ 64

/-- `size_t` subtraction `a - b`, i.e. subtraction modulo `2 ^ 64`. -/
def wsub (a b : Nat) : Nat := (a % W + (W - b % W)) % W

/-- `numblocks` of block_links.hpp lines 47-48:
`contents.size() / page_size + (contents.size() % page_size > 0)`. -/
def num_blocks (len p : Nat) : Nat := len / p + (if len % p > 0 then 1 else 0)

/-- The per-page loop of `block::get_block` (block_links.hpp lines
49-59), on a pool whose reused tail block currently holds `f0`
elements.  `b`/`e` are the `begin`/`end` iterators as indices into the
contents.  Each iteration returns the pair
(number of elements copied into the block's page, the block's `filled`
count after the iteration).  The source advances `begin` to
`segment_end` (line 54) BEFORE adding `std::distance(begin,
segment_end)` to `filled` (line 55); the embedding keeps that order:
`b2` is the advanced iterator and the increment is `segEnd - b2`. -/
def get_block_loop (p : Nat) : Nat → Nat → Nat → Nat → List (Nat × Nat)
  | 0, _, _, _ => []
  | n + 1, b, e, f0 =>
    let segEnd := b + min p (e - b)
    let copied := segEnd - b
    let b2 := segEnd
    let filled2 := f0 + (segEnd - b2)
    (copied, filled2) :: get_block_loop p n b2 e 0

/-- `block::get_block` on a fresh pool (tail block empty): the pages it
writes, as (elements copied, resulting `filled`) pairs, for contents of
length `len` and page size `p`. -/
def get_block_pages (len p : Nat) : List (Nat × Nat) :=
  get_block_loop p (num_blocks len p) 0 len 0

/-- The walk of the `block_links` constructor (block_links.hpp lines
84-101).  `blocks` is the chain of blocks reachable from `first_block`,
as (block id, `filled`) pairs; `off` is the initial block offset and
`total` the total length, both from the `get_block` result tuple.  The
source leaves `current_block` uninitialised (line 90, a reference
without an initialiser); the evident intent, used here, is that it
aliases `get<0>(t)`, the first block.  Each loop iteration pushes the
segment `{current_block, initial_block_offset, total_length -=
current_block->filled - initial_block_offset}` — i.e. the recorded
length is the NEW value of `total_length`, after the `size_t`
subtraction — then zeroes the offset and hops to the next block.
Returns the segment list and whether the final assertion
`current_block != nullptr && !total_length` holds (running off the end
of the block chain makes it fail). -/
def block_links_construct : List (Nat × Nat) → Nat → Nat → List Seg × Bool
  | [], _, _ => ([], false)
  | (b, f) :: rest, off, total =>
    if total = 0 then ([], true)
    else
      let total2 := wsub total (wsub f off)
      let r := block_links_construct rest 0 total2
      (⟨b, off, total2⟩ :: r.1, r.2)

/-- `block_links::append` (block_links.hpp lines 106-116).  If the
appended tuple's block equals the last link's block, the last link's
length grows by the tuple's length and that block's refcount is
incremented; the source has NO else branch, so on differing blocks
nothing happens.  (`links.back()` on an empty deque is undefined in the
source; the claims only exercise nonempty lists, where the embedding
is faithful.)  Returns the new links and the ids whose refcount was
incremented, in order. -/
def append (links : List Seg) (t : Seg) : List Seg × List Nat :=
  match links.getLast? with
  | none => (links, [])
  | some lastSeg =>
    if lastSeg.blk = t.blk then
      (links.dropLast ++ [⟨lastSeg.blk, lastSeg.off, lastSeg.len + t.len⟩], [t.blk])
    else
      (links, [])

/-- `block_links::slice` (block_links.hpp lines 121-157).  The source
iterates the deque with a range-for while calling `pop_front` /
`pop_back` on it (undefined behaviour as written); the embedding is the
evident intended sequential front-to-back walk.  Branches, in source
order for each segment `s`:
 * `offset > block_length` (strict): decrement the block's refcount
   (deleting on zero), pop the segment, `offset -= block_length`;
 * `offset != 0`: trim the front of the segment (`block_offset +=
   offset; block_length -= offset`), zero `offset`, keep walking —
   note the source does not consume `length` from this segment;
 * `length < block_length`: `block_length -= length`; if that left zero
   (impossible, since `length < block_length`) decrement the refcount
   and `pop_back`; then `break`, leaving `length` untouched;
 * otherwise `length -= block_length` and keep walking.
Returns (remaining links, block ids whose refcount was decremented in
order, final `offset`, final `length`); the trailing
`assert(!offset && !length)` of line 156 holds iff the last two
components are zero. -/
def slice : List Seg → Nat → Nat → List Seg × List Nat × Nat × Nat
  | [], off, len => ([], [], off, len)
  | s :: rest, off, len =>
    if off > s.len then
      let r := slice rest (off - s.len) len
      (r.1, s.blk :: r.2.1, r.2.2)
    else if off ≠ 0 then
      let r := slice rest 0 len
      (⟨s.blk, s.off + off, s.len - off⟩ :: r.1, r.2)
    else if len < s.len then
      let blen := s.len - len
      if blen = 0 then
        ((Seg.mk s.blk s.off blen :: rest).dropLast, [s.blk], 0, len)
      else
        (Seg.mk s.blk s.off blen :: rest, [], 0, len)
    else
      let r := slice rest 0 (len - s.len)
      (s :: r.1, r.2)

/-- The `block_links` destructor (block_links.hpp lines 159-164):
one refcount decrement per segment, in order. -/
def dtor_decrements (links : List Seg) : List Nat := links.map (·.blk)

/-- Number of live segments of a links list that reference block `b`. -/
def segs_referencing (b : Nat) (links : List Seg) : Nat :=
  (links.filter (fun s => s.blk = b)).length

/-- The elements a segment references inside its block's page
(`pages` maps a block id to the page contents). -/
def seg_content (pages : Nat → List Nat) (s : Seg) : List Nat :=
  ((pages s.blk).drop s.off).take s.len

/-- The logical content of a links list: the in-order concatenation of
its segments' referenced elements. -/
def links_content (pages : Nat → List Nat) (links : List Seg) : List Nat :=
  links.flatMap (seg_content pages)

/-- The public value type `chain_t` (chain.hpp lines 35-160): the
allocator it is bound to (by identity) and the logical content of its
links.  `links_` itself is a `void*` TODO in the source, so the chain
is embedded at the level of its logical content. -/
structure chain_t where
  alloc : Nat
  content : List Nat
deriving DecidableEq, Repr

/-- Modelled from the spec: `copy_links` (declared at chain.hpp line
159, never defined in the sources) deep-clones the source chain's
content using the destination's allocator and "gracefully backs out
when it cannot copy all the links", leaving the destination's links
defaulted (empty).  The flag `ok` stands for whether cloning succeeds. -/
def copy_links (ok : Bool) (src : List Nat) : List Nat :=
  if ok then src else []

/-- Modelled from the spec: `operator==` (declared at chain.hpp line
144, never defined in the sources) is true when the allocators compare
equal and the chains refer to the same links, or, failing that, when
element-wise comparison succeeds. -/
def chain_eq (a b : chain_t) : Bool :=
  (a.alloc == b.alloc && a.content == b.content) || a.content == b.content

/-- `chain_t::swap` (chain.hpp lines 80-132).  Equal allocators: the
two links are exchanged (the source falls off the end of this branch
without a return; no claim depends on its return value, modelled as
`true`).  Differing allocators: clone each chain's content into the
other's allocator via `copy_links` (clone outcomes `ok1` for
`temporary_this`, `ok2` for `temporary_that`), compare each temporary
against a freshly defaulted chain on the same allocator, return `false`
touching nothing if either comparison succeeds, otherwise install both
temporaries' links and return `true`.  Allocator bindings are never
touched.  Returns (result, new `*this`, new `other`). -/
def chain_swap (this_ other : chain_t) (ok1 ok2 : Bool) : Bool × chain_t × chain_t :=
  if this_.alloc = other.alloc then
    (true, ⟨this_.alloc, other.content⟩, ⟨other.alloc, this_.content⟩)
  else
    let defaulted_this : chain_t := ⟨this_.alloc, []⟩
    let defaulted_that : chain_t := ⟨other.alloc, []⟩
    let temporary_this : chain_t := ⟨this_.alloc, copy_links ok1 other.content⟩
    let temporary_that : chain_t := ⟨other.alloc, copy_links ok2 this_.content⟩
    if chain_eq temporary_this defaulted_this || chain_eq temporary_that defaulted_that then
      (false, this_, other)
    else
      (true, ⟨this_.alloc, temporary_this.content⟩, ⟨other.alloc, temporary_that.content⟩)

/-- `chain_t::operator=` (chain.hpp lines 70-73): copy-and-swap.  `rhs`
is a by-value copy of `b` (the copy constructor is declared at chain.hpp
line 65 but never defined; modelled from the spec as preserving the
source's allocator binding and content), then `rhs.swap(*this)` runs —
so inside the swap, `this` is `rhs` and `other` is `a` — and the swap's
boolean result is discarded.  Returns the new value of `a`; `b` is
never touched. -/
def chain_assign (a b : chain_t) (ok1 ok2 : Bool) : chain_t :=
  let rhs : chain_t := ⟨b.alloc, b.content⟩
  (chain_swap rhs a ok1 ok2).2.2

/-- Pages of the two blocks used in the slice-correctness scenario:
block 1 holds [10, 11], block 2 holds [20, 21]. -/
def c1_pages : Nat → List Nat :=
  fun b => if b = 1 then [10, 11] else if b = 2 then [20, 21] else []

/-- The links of a four-element chain over those two blocks. -/
def c1_links : List Seg := [⟨1, 0, 2⟩, ⟨2, 0, 2⟩]

/-- Claim C1: slicing a chain to `[offset, offset+length)` should yield
content equal to the corresponding sub-range of the original.  Refuted
on the code: slicing the four-element chain `[10, 11, 20, 21]` to
`[0, 2)` leaves the links (and hence the content) completely unchanged
— the `length < block_length` branch trims nothing when `length`
reaches 0 on a segment boundary and breaks, never dropping the
remaining segments — and the walk even ends with
`offset = length = 0`, so the trailing assert does not catch it. -/
theorem c1_slice_content_wrong :
    slice c1_links 0 2 = (c1_links, [], 0, 0) ∧
    links_content c1_pages (slice c1_links 0 2).1 ≠
      (links_content c1_pages c1_links).take 2 := by
  decide

/-- Claim C2: a block's refcount should equal the number of live
segments referencing it, and the last segment removal should release
the block exactly once.  Refuted on the code: starting from links
`[(block 1, 0, 5)]` with block 1's refcount 1 (the `get_block`
ownership), the merge branch of `append` with `(block 1, 0, 5)` leaves
ONE segment referencing block 1 yet increments the refcount to 2; the
destructor then decrements once per segment, leaving refcount 1, so the
block is released zero times (a leak), never exactly once. -/
theorem c2_refcount_not_conserved :
    (append [⟨1, 0, 5⟩] ⟨1, 0, 5⟩).1 = [⟨1, 0, 10⟩] ∧
    1 + ((append [⟨1, 0, 5⟩] ⟨1, 0, 5⟩).2.count 1) = 2 ∧
    segs_referencing 1 (append [⟨1, 0, 5⟩] ⟨1, 0, 5⟩).1 = 1 ∧
    1 + ((append [⟨1, 0, 5⟩] ⟨1, 0, 5⟩).2.count 1) -
      ((dtor_decrements (append [⟨1, 0, 5⟩] ⟨1, 0, 5⟩).1).count 1) = 1 := by
  decide

/-- Claim C3: `get_block` on a 20-element source with page size 8
should produce 3 blocks with fill counts 8, 8, 4.  The code does copy
8, 8 and 4 elements into the three pages, but the `filled` counts all
stay 0, because line 54 advances `begin` to `segment_end` before line
55 adds `std::distance(begin, segment_end)` — which is then zero — to
`filled`. -/
theorem c3_filled_counts_stay_zero :
    (get_block_pages 20 8).length = 3 ∧
    (get_block_pages 20 8).map Prod.fst = [8, 8, 4] ∧
    (get_block_pages 20 8).map Prod.snd = [0, 0, 0] ∧
    (get_block_pages 20 8).map Prod.snd ≠ [8, 8, 4] := by
  decide

/-- Claim C4: appending a descriptor whose block differs from the last
segment's block should push a new segment and increment that block's
refcount.  Refuted on the code: `append` has no else branch, so
appending `(block 2, 0, 3)` to links `[(block 1, 0, 3)]` changes
nothing and increments nothing (the first conjunct shows the merge half
of the claim, on equal blocks, does hold). -/
theorem c4_append_drops_differing_block :
    append [⟨1, 0, 3⟩] ⟨1, 0, 4⟩ = ([⟨1, 0, 7⟩], [1]) ∧
    append [⟨1, 0, 3⟩] ⟨2, 0, 3⟩ = ([⟨1, 0, 3⟩], []) ∧
    append [⟨1, 0, 3⟩] ⟨2, 0, 3⟩ ≠ ([⟨1, 0, 3⟩, ⟨2, 0, 3⟩], [2]) := by
  decide

/-- Claim C5: for chains on allocators that compare not-equal, swap
either fully succeeds — both contents exchanged, allocator bindings
untouched, returning true — or returns false leaving both chains
completely unchanged; it never mutates exactly one of the two. -/
theorem c5_swap_all_or_nothing (a b : chain_t) (ok1 ok2 : Bool)
    (h : a.alloc ≠ b.alloc) :
    chain_swap a b ok1 ok2 = (true, ⟨a.alloc, b.content⟩, ⟨b.alloc, a.content⟩) ∨
    chain_swap a b ok1 ok2 = (false, a, b) := by
  rcases a with ⟨aa, ac⟩
  rcases b with ⟨ba, bc⟩
  simp only [chain_t.alloc] at h
  cases ok1 <;> cases ok2 <;>
    simp only [chain_swap, copy_links, chain_eq, if_pos, if_neg h] <;>
    rcases hac : ac with _ | ⟨x, xs⟩ <;> rcases hbc : bc with _ | ⟨y, ys⟩ <;>
    simp

theorem c5_swap_all_or_nothing_witness :
    chain_swap ⟨1, [0]⟩ ⟨2, [1]⟩ true true = (true, ⟨1, [1]⟩, ⟨2, [0]⟩) ∨
    chain_swap ⟨1, [0]⟩ ⟨2, [1]⟩ true true = (false, ⟨1, [0]⟩, ⟨2, [1]⟩) :=
  c5_swap_all_or_nothing ⟨1, [0]⟩ ⟨2, [1]⟩ true true (by decide)

/-- Claim C6: the `block_links` constructor walk should record segments
whose lengths sum to the requested `total_length`.  Refuted on the
code: each pushed length is the remaining total AFTER consuming the
block (`total_length -= filled - offset`), not the amount consumed, so
on the block chain with fill counts 8, 8, 4 (plus the pool's empty
tail) and total length 20 the walk succeeds — the final assert holds —
but records segment lengths 12, 4, 0, which sum to 16, not 20. -/
theorem c6_segment_lengths_sum_wrong :
    block_links_construct [(1, 8), (2, 8), (3, 4), (4, 0)] 0 20 =
      ([⟨1, 0, 12⟩, ⟨2, 0, 4⟩, ⟨3, 0, 0⟩], true) ∧
    ((block_links_construct [(1, 8), (2, 8), (3, 4), (4, 0)] 0 20).1.map
      Seg.len).sum = 16 ∧
    ((block_links_construct [(1, 8), (2, 8), (3, 4), (4, 0)] 0 20).1.map
      Seg.len).sum ≠ 20 := by
  decide

/-- Claim C7: an out-of-bounds slice should be detected before any
refcount is decremented, leaving links and refcounts unchanged.
Refuted on the code: slicing the one-segment chain `[(block 1, 0, 5)]`
with offset 7 (out of bounds) decrements block 1's refcount and pops
the segment first; only the assert after the walk notices the leftover
offset (final offset 2, length 1, both nonzero). -/
theorem c7_failed_slice_mutates :
    slice [⟨1, 0, 5⟩] 7 1 = ([], [1], 2, 1) ∧
    (slice [⟨1, 0, 5⟩] 7 1).2.2 ≠ (0, 0) ∧
    (slice [⟨1, 0, 5⟩] 7 1).2.1 ≠ [] ∧
    (slice [⟨1, 0, 5⟩] 7 1).1 ≠ [⟨1, 0, 5⟩] := by
  decide

/-- Claim C8: a leading segment exactly consumed by the slice offset
should be dropped (with a refcount decrement), never kept as a
zero-length segment.  Refuted on the code: the skip branch tests
`offset > block_length` strictly, so slicing
`[(block 1, 0, 5), (block 2, 0, 3)]` at offset 5 keeps block 1's
segment as `(block 1, 5, 0)` — a zero-length segment — and decrements
no refcount. -/
theorem c8_zero_length_segment_kept :
    slice [⟨1, 0, 5⟩, ⟨2, 0, 3⟩] 5 3 = ([⟨1, 5, 0⟩, ⟨2, 0, 3⟩], [], 0, 0) ∧
    Seg.mk 1 5 0 ∈ (slice [⟨1, 0, 5⟩, ⟨2, 0, 3⟩] 5 3).1 ∧
    (slice [⟨1, 0, 5⟩, ⟨2, 0, 3⟩] 5 3).2.1 = [] := by
  decide

/-- Claim C9 as stated is false on the code: assigning `b` (content
`[5]`, allocator 2) to the EMPTY chain `a` (allocator 1) goes through
`rhs.swap(a)`, whose clone of `a`'s empty content compares equal to the
defaulted chain, so the swap reports failure, `operator=` discards that
result, and `a` is left unchanged and not content-equal to `b`. -/
theorem c9_assign_from_empty_fails :
    chain_assign ⟨1, []⟩ ⟨2, [5]⟩ true true = ⟨1, []⟩ ∧
    chain_eq (chain_assign ⟨1, []⟩ ⟨2, [5]⟩ true true) ⟨2, [5]⟩ = false := by
  decide

/-- Claim C9 amended: for chains `a`, `b` on allocators that compare
not-equal, with BOTH contents nonempty and both clones succeeding,
`a = b` leaves `a` content-equal to `b` while `a` stays bound to its
original allocator (`b` is passed by value and never touched). -/
theorem c9_assign_nonempty_ok (a b : chain_t) (h : a.alloc ≠ b.alloc)
    (ha : a.content ≠ []) (hb : b.content ≠ []) :
    chain_assign a b true true = ⟨a.alloc, b.content⟩ ∧
    chain_eq (chain_assign a b true true) b = true := by
  rcases a with ⟨aa, ac⟩
  rcases b with ⟨ba, bc⟩
  simp only [chain_t.alloc] at h
  simp only [chain_t.content] at ha hb
  have h2 : ba ≠ aa := fun e => h e.symm
  constructor
  · simp only [chain_assign, chain_swap, copy_links, chain_eq, if_neg h2]
    rcases ac with _ | ⟨x, xs⟩
    · exact absurd rfl ha
    · rcases bc with _ | ⟨y, ys⟩
      · exact absurd rfl hb
      · simp
  · simp only [chain_assign, chain_swap, copy_links, chain_eq, if_neg h2]
    rcases ac with _ | ⟨x, xs⟩
    · exact absurd rfl ha
    · rcases bc with _ | ⟨y, ys⟩
      · exact absurd rfl hb
      · simp

theorem c9_assign_nonempty_ok_witness :
    chain_assign ⟨1, [0]⟩ ⟨2, [1]⟩ true true = ⟨1, [1]⟩ ∧
    chain_eq (chain_assign ⟨1, [0]⟩ ⟨2, [1]⟩ true true) ⟨2, [1]⟩ = true :=
  c9_assign_nonempty_ok ⟨1, [0]⟩ ⟨2, [1]⟩ (by decide) (by decide) (by decide)

/-- Claim C10: a cross-provider swap where either chain's content is
empty returns false and leaves both chains unchanged, even when both
clones succeed — the failure test compares the clones against freshly
defaulted chains, and a successful clone of empty content is
indistinguishable from a failed one. -/
theorem c10_swap_empty_reports_failure (a b : chain_t)
    (h : a.alloc ≠ b.alloc) (he : a.content = [] ∨ b.content = []) :
    chain_swap a b true true = (false, a, b) := by
  rcases a with ⟨aa, ac⟩
  rcases b with ⟨ba, bc⟩
  simp only [chain_t.alloc] at h
  simp only [chain_t.content] at he
  simp only [chain_swap, copy_links, chain_eq, if_neg h]
  rcases he with he | he <;> subst he <;> simp

theorem c10_swap_empty_reports_failure_witness :
    chain_swap ⟨1, []⟩ ⟨2, [1]⟩ true true = (false, ⟨1, []⟩, ⟨2, [1]⟩) :=
  c10_swap_empty_reports_failure ⟨1, []⟩ ⟨2, [1]⟩ (by decide) (by decide)

end ChainSpec
